import Mathlib

/-!
Verification of the ShareRide seat-reservation model.

The definitions below are a shallow embedding of the reservation data
model and operations of the ShareRide repository:

* the `ride_reservations` table and its two table-level `UNIQUE`
  constraints (`supabase/migrations/5_init_ride_reservations.sql`),
  together with the `BEFORE UPDATE` trigger that refreshes `updated_at`
  (`update_updated_at_column`, `1_create_profile_trigger.sql`);
* the `rides` table (`4_init_rides.sql`);
* `createReservation` and `cancelReservation`
  (`src/hooks/useReservations.ts`);
* `updateRide` (`src/hooks/useEvents.ts`);
* the availability projections of `ReserveSeatButton.tsx`,
  `app/rides/page.tsx` and the `SeatList` component;
* the seat-configuration utilities (`src/lib/utils/seatConfig.ts`).

Machine integers of the source are modelled as `Int`/`Nat`; UUIDs are
modelled as `Nat` identifiers; timestamps are modelled as a `Nat` clock
value passed explicitly to each operation.
-/

namespace ShareRide

/-- User identifiers (`profiles.id`, `auth.uid()`). -/
abbrev UserId := Nat

/-- Ride identifiers (`rides.id`). -/
abbrev RideId := Nat

/-- Reservation identifiers (`ride_reservations.id`). -/
abbrev ResId := Nat

/-- A row of the `rides` table, restricted to the columns the
reservation path reads: `id`, `driver_id`, `available_seats` (an
`INTEGER[]`), and `status`. -/
structure Ride where
  id : RideId
  driver_id : UserId
  available_seats : List Int
  status : String
deriving DecidableEq, Repr

/-- A row of the `ride_reservations` table (payment columns, unused by
Stage 1 logic, are omitted; `created_at` / `updated_at` are the row
timestamps maintained by the insert default and the update trigger). -/
structure Reservation where
  id : ResId
  ride_id : RideId
  rider_id : UserId
  seat_number : Int
  status : String
  created_at : Nat
  updated_at : Nat
deriving DecidableEq, Repr

/-- The database state seen by the reservation operations: the `rides`
rows, the `ride_reservations` rows, and a counter supplying the next
generated reservation id. -/
structure DB where
  rides : List Ride
  reservations : List Reservation
  nextResId : ResId
deriving DecidableEq, Repr

/-- An initial database: some rides, no reservations yet. -/
def DB.init (rides : List Ride) : DB :=
  { rides := rides, reservations := [], nextResId := 0 }

/-- The errors `createReservation` can throw, one constructor per
`throw` site in `useReservations.ts` (the two `uniqueViolation`
constructors are the `23505` unique-constraint rejections of the insert
itself). -/
inductive CreateError where
  | notLoggedIn
  | rideNotFound
  | seatNotAvailable (seat : Int)
  | seatAlreadyReserved (seat : Int)
  | alreadyReservedOnRide
  | ownRide
  | uniqueViolationSeat (seat : Int)
  | uniqueViolationRider
deriving DecidableEq, Repr

/-- The user-facing message of each `createReservation` error, exactly
the strings thrown in `useReservations.ts` (the code maps the `23505`
constraint violations back onto the pre-check wordings). -/
def CreateError.message : CreateError → String
  | .notLoggedIn => "You must be logged in to reserve a seat"
  | .rideNotFound => "Ride not found or no longer accepting reservations"
  | .seatNotAvailable s => "Seat " ++ toString s ++ " is not available for this ride"
  | .seatAlreadyReserved s => "Seat " ++ toString s ++ " is already reserved"
  | .alreadyReservedOnRide => "You already have a reservation on this ride"
  | .ownRide => "You cannot reserve a seat on your own ride"
  | .uniqueViolationSeat s => "Seat " ++ toString s ++ " is already reserved"
  | .uniqueViolationRider => "You already have a reservation on this ride"

/-- Errors of `cancelReservation`. -/
inductive CancelError where
  | notLoggedIn
deriving DecidableEq, Repr

/-- Errors of `updateRide`. -/
inductive UpdateError where
  | notLoggedIn
  | rideNotFound
  | notDriver
deriving DecidableEq, Repr

/-- The ride lookup of `createReservation` Step 1:
`from("rides").select("*").eq("id", rideId).eq("status", "active").single()`. -/
def findActiveRide (db : DB) (rideId : RideId) : Option Ride :=
  db.rides.find? (fun r => r.id == rideId && r.status == "active")

/-- The seat pre-check query of `createReservation` Step 3: a confirmed
reservation on the given ride and seat. -/
def confirmedAt (db : DB) (rideId : RideId) (seat : Int) : Option Reservation :=
  db.reservations.find? (fun r =>
    r.ride_id == rideId && r.seat_number == seat && r.status == "confirmed")

/-- The rider pre-check query of `createReservation` Step 4: a confirmed
reservation by the given rider on the given ride. -/
def confirmedBy (db : DB) (rideId : RideId) (uid : UserId) : Option Reservation :=
  db.reservations.find? (fun r =>
    r.ride_id == rideId && r.rider_id == uid && r.status == "confirmed")

/-- The table-level constraint `UNIQUE(ride_id, seat_number)`: true when
a row of ANY status already occupies the (ride, seat) slot. -/
def seatSlotTaken (db : DB) (rideId : RideId) (seat : Int) : Bool :=
  db.reservations.any (fun r => r.ride_id == rideId && r.seat_number == seat)

/-- The table-level constraint `UNIQUE(ride_id, rider_id)`: true when a
row of ANY status already occupies the (ride, rider) slot. -/
def riderSlotTaken (db : DB) (rideId : RideId) (uid : UserId) : Bool :=
  db.reservations.any (fun r => r.ride_id == rideId && r.rider_id == uid)

/-- `createReservation` from `useReservations.ts`, composed with the
database's insert behaviour: the six application-level steps in source
order, then the insert, which the two table-level `UNIQUE` constraints
may reject (surfaced by the code's `23505` handler, seat message checked
first).  `uid` is the authenticated user (`none` when not logged in) and
`now` the insert timestamp. -/
def createReservation (db : DB) (uid : Option UserId) (rideId : RideId)
    (seatNumber : Int) (now : Nat) : DB × Except CreateError Reservation :=
  match uid with
  | none => (db, .error .notLoggedIn)
  | some user =>
    match findActiveRide db rideId with
    | none => (db, .error .rideNotFound)
    | some ride =>
      if seatNumber ∉ ride.available_seats then
        (db, .error (.seatNotAvailable seatNumber))
      else if (confirmedAt db rideId seatNumber).isSome then
        (db, .error (.seatAlreadyReserved seatNumber))
      else if (confirmedBy db rideId user).isSome then
        (db, .error .alreadyReservedOnRide)
      else if ride.driver_id == user then
        (db, .error .ownRide)
      else if seatSlotTaken db rideId seatNumber then
        (db, .error (.uniqueViolationSeat seatNumber))
      else if riderSlotTaken db rideId user then
        (db, .error .uniqueViolationRider)
      else
        let res : Reservation :=
          { id := db.nextResId, ride_id := rideId, rider_id := user,
            seat_number := seatNumber, status := "confirmed",
            created_at := now, updated_at := now }
        ({ db with reservations := db.reservations ++ [res],
                   nextResId := db.nextResId + 1 }, .ok res)

/-- `cancelReservation` from `useReservations.ts`, composed with the
`update_ride_reservations_updated_at` trigger: the rows matched by
`.eq("id", reservationId).eq("rider_id", user.id)` get status
`"cancelled"` and a refreshed `updated_at`; on success the hook also
filters the locally cached list by `res.id !== reservationId`. -/
def cancelReservation (db : DB) (cache : List Reservation) (uid : Option UserId)
    (reservationId : ResId) (now : Nat) :
    DB × List Reservation × Except CancelError Unit :=
  match uid with
  | none => (db, cache, .error .notLoggedIn)
  | some user =>
    let updated := db.reservations.map (fun r =>
      if r.id == reservationId && r.rider_id == user then
        { r with status := "cancelled", updated_at := now }
      else r)
    ({ db with reservations := updated },
     cache.filter (fun r => r.id != reservationId),
     .ok ())

/-- The update payload of `updateRide` (`RideUpdate`), restricted to the
columns relevant to the reservation model; `none` means the column is
absent from the payload and keeps its value. -/
structure RideUpdate where
  available_seats : Option (List Int)
  status : Option String
deriving DecidableEq, Repr

/-- Applying a `RideUpdate` payload to a ride row. -/
def applyRideUpdate (r : Ride) (u : RideUpdate) : Ride :=
  { r with available_seats := u.available_seats.getD r.available_seats,
           status := u.status.getD r.status }

/-- `updateRide` from `useEvents.ts`: requires an authenticated caller,
an existing ride, and that the caller is its driver, then runs
`.update(updates).eq("id", id)`. -/
def updateRide (db : DB) (uid : Option UserId) (rideId : RideId)
    (upd : RideUpdate) : DB × Except UpdateError Ride :=
  match uid with
  | none => (db, .error .notLoggedIn)
  | some user =>
    match db.rides.find? (fun r => r.id == rideId) with
    | none => (db, .error .rideNotFound)
    | some existing =>
      if existing.driver_id != user then
        (db, .error .notDriver)
      else
        ({ db with rides := db.rides.map (fun r =>
            if r.id == rideId then applyRideUpdate r upd else r) },
         .ok (applyRideUpdate existing upd))

/-- The set of reserved seat numbers built in `ReserveSeatButton.tsx`:
seat numbers of the reservations whose status is `"confirmed"`. -/
def reservedSeatNumbers (reservations : List Reservation) : List Int :=
  (reservations.filter (fun r => r.status == "confirmed")).map (fun r => r.seat_number)

/-- `availableSeatsCount` from `ReserveSeatButton.tsx`: the seats of
`available_seats` that are not in the reserved set. -/
def availableSeatsCount (available_seats : List Int)
    (reservations : List Reservation) : Nat :=
  (available_seats.filter
    (fun s => !((reservedSeatNumbers reservations).contains s))).length

/-- The number of confirmed reservations of a ride, as counted by the
`ride_reservations` count query of `app/rides/page.tsx`
(`eq("ride_id", ...).eq("status", "confirmed")`). -/
def confirmedCount (db : DB) (rideId : RideId) : Nat :=
  (db.reservations.filter
    (fun r => r.ride_id == rideId && r.status == "confirmed")).length

/-- `getAvailableSeats` from `app/rides/page.tsx`: `0` unless the role
is `"driver"`, else `available_seats.length - reservationCount` (a JS
number subtraction, hence `Int`). -/
def getAvailableSeats (role : String) (available_seats : List Int)
    (reservationCount : Nat) : Int :=
  if role != "driver" then 0
  else (available_seats.length : Int) - (reservationCount : Int)

/-- `isSeatAvailable` from `seatConfig.ts`. -/
def isSeatAvailable (seatNumber : Int)
    (availableSeats : List Int) : Bool :=
  if availableSeats.isEmpty then false
  else availableSeats.contains seatNumber

/-- One entry of the `SeatList` component's per-seat projection. -/
structure SeatStatus where
  seatNumber : Int
  isAvailable : Bool
  isOccupied : Bool
deriving DecidableEq, Repr

/-- `seatStatuses` from the `SeatList` component: sort the ride's
available seats ascending and mark each one occupied exactly when a
confirmed reservation on that seat number is found. -/
def seatStatuses (availableSeats : List Int)
    (reservations : List Reservation) : List SeatStatus :=
  let confirmed := reservations.filter (fun r => r.status == "confirmed")
  (availableSeats.mergeSort (fun a b => decide (a ≤ b))).map (fun seatNumber =>
    { seatNumber := seatNumber,
      isAvailable := isSeatAvailable seatNumber availableSeats,
      isOccupied := (confirmed.find? (fun r => r.seat_number == seatNumber)).isSome })

/-- `generateSeatsForTotalCount` from `seatConfig.ts`: `[]` when
`totalSeats < 2`, else `Array.from` of length `totalSeats - 1` mapping
index `i` to `i + 2`. -/
def generateSeatsForTotalCount (totalSeats : Int) : List Int :=
  if totalSeats < 2 then []
  else (List.range (totalSeats - 1).toNat).map (fun i => (Nat.cast i + 2 : Int))

/-- One step of the reservation subsystem: any call to
`createReservation`, `cancelReservation` or `updateRide` (whatever its
arguments and whether it succeeds or fails), observed through the
database state it leaves behind. -/
inductive Step : DB → DB → Prop where
  | create (db : DB) (uid : Option UserId) (rideId : RideId)
      (seat : Int) (now : Nat) :
      Step db (createReservation db uid rideId seat now).1
  | cancel (db : DB) (cache : List Reservation) (uid : Option UserId)
      (resId : ResId) (now : Nat) :
      Step db (cancelReservation db cache uid resId now).1
  | update (db : DB) (uid : Option UserId) (rideId : RideId)
      (upd : RideUpdate) :
      Step db (updateRide db uid rideId upd).1

/-- Database states reachable by the reservation operations from an
initial state with no reservations (ride ids are unique, as the `rides`
primary key guarantees). -/
inductive Reachable : DB → Prop where
  | init (rides : List Ride) (h : (rides.map Ride.id).Nodup) :
      Reachable (DB.init rides)
  | step {db db' : DB} : Reachable db → Step db db' → Reachable db'

/-- A step that never alters a ride's `available_seats`: ride updates
are restricted to payloads without an `available_seats` column. -/
inductive StepFS : DB → DB → Prop where
  | create (db : DB) (uid : Option UserId) (rideId : RideId)
      (seat : Int) (now : Nat) :
      StepFS db (createReservation db uid rideId seat now).1
  | cancel (db : DB) (cache : List Reservation) (uid : Option UserId)
      (resId : ResId) (now : Nat) :
      StepFS db (cancelReservation db cache uid resId now).1
  | update (db : DB) (uid : Option UserId) (rideId : RideId)
      (upd : RideUpdate) (hseats : upd.available_seats = none) :
      StepFS db (updateRide db uid rideId upd).1

/-- Reachability when no ride update ever changes `available_seats`. -/
inductive ReachableFS : DB → Prop where
  | init (rides : List Ride) (h : (rides.map Ride.id).Nodup) :
      ReachableFS (DB.init rides)
  | step {db db' : DB} : ReachableFS db → StepFS db db' → ReachableFS db'

/-- A concrete ride: ride 0, driven by user 100, seats 2 and 3 offered,
status active. -/
def ride0 : Ride :=
  { id := 0, driver_id := 100, available_seats := [2, 3], status := "active" }

/-- Initial state holding just `ride0`. -/
def dbA : DB := DB.init [ride0]

/-- After rider 1 reserves seat 2 on ride 0 (at time 1). -/
def dbB : DB := (createReservation dbA (some 1) 0 2 1).1

/-- After rider 2 also reserves seat 3 on ride 0 (at time 2). -/
def dbB2 : DB := (createReservation dbB (some 2) 0 3 2).1

/-- After rider 1 cancels their reservation (id 0, at time 3). -/
def dbC : DB := (cancelReservation dbB [] (some 1) 0 3).1

/-- The cancelled row sitting in `dbC`. -/
def resCancelled : Reservation :=
  { id := 0, ride_id := 0, rider_id := 1, seat_number := 2,
    status := "cancelled", created_at := 1, updated_at := 3 }

/-- After the driver shrinks ride 0's seat list to `[2]` in state
`dbB2` (two confirmed reservations exist at that point). -/
def dbShrunk : DB :=
  (updateRide dbB2 (some 100) 0 { available_seats := some [2], status := none }).1

/-- Helper: the reduced form of `createReservation` for an authenticated
caller once the active-ride lookup has resolved. -/
theorem createReservation_some_eq (db : DB) (u : UserId) (rideId : RideId)
    (s : Int) (now : Nat) (ride : Ride)
    (hfind : findActiveRide db rideId = some ride) :
    createReservation db (some u) rideId s now
      = if s ∉ ride.available_seats then
          (db, Except.error (CreateError.seatNotAvailable s))
        else if (confirmedAt db rideId s).isSome then
          (db, Except.error (CreateError.seatAlreadyReserved s))
        else if (confirmedBy db rideId u).isSome then
          (db, Except.error CreateError.alreadyReservedOnRide)
        else if ride.driver_id == u then
          (db, Except.error CreateError.ownRide)
        else if seatSlotTaken db rideId s then
          (db, Except.error (CreateError.uniqueViolationSeat s))
        else if riderSlotTaken db rideId u then
          (db, Except.error CreateError.uniqueViolationRider)
        else
          ({ rides := db.rides,
             reservations := db.reservations ++
               [{ id := db.nextResId, ride_id := rideId, rider_id := u,
                  seat_number := s, status := "confirmed",
                  created_at := now, updated_at := now }],
             nextResId := db.nextResId + 1 },
           Except.ok { id := db.nextResId, ride_id := rideId, rider_id := u,
                       seat_number := s, status := "confirmed",
                       created_at := now, updated_at := now }) := by
  unfold createReservation
  rw [hfind]

/-- Helper: the state `createReservation` leaves behind is either the
input state (every error path) or the input state with exactly the new
confirmed row appended, and in the latter case every precondition and
both uniqueness slots were checked free. -/
theorem createReservation_state_cases (db : DB) (uid : Option UserId)
    (rideId : RideId) (s : Int) (now : Nat) :
    (createReservation db uid rideId s now).1 = db ∨
    ∃ u ride, uid = some u ∧ findActiveRide db rideId = some ride ∧
      s ∈ ride.available_seats ∧ ride.driver_id ≠ u ∧
      seatSlotTaken db rideId s = false ∧ riderSlotTaken db rideId u = false ∧
      (createReservation db uid rideId s now).1
        = { rides := db.rides,
            reservations := db.reservations ++
              [{ id := db.nextResId, ride_id := rideId, rider_id := u,
                 seat_number := s, status := "confirmed",
                 created_at := now, updated_at := now }],
            nextResId := db.nextResId + 1 } := by
  cases uid with
  | none => exact Or.inl rfl
  | some u =>
    unfold createReservation
    cases hf : findActiveRide db rideId with
    | none => exact Or.inl rfl
    | some ride =>
      simp only
      split_ifs with h1 h2 h3 h4 h5 h6 <;>
        first
          | exact Or.inl rfl
          | exact Or.inr ⟨u, ride, rfl, rfl, h1,
              fun he => h4 (by simp [he]), by simpa using h5, by simpa using h6, rfl⟩

/-- Helper: `createReservation` never modifies the `rides` table. -/
theorem createReservation_rides_eq (db : DB) (uid : Option UserId)
    (rideId : RideId) (s : Int) (now : Nat) :
    (createReservation db uid rideId s now).1.rides = db.rides := by
  rcases createReservation_state_cases db uid rideId s now with h | ⟨_, _, _, _, _, _, _, _, h⟩ <;>
    rw [h]

/-- Helper: the state left by `cancelReservation` under an authenticated
caller: the matched rows get status `"cancelled"` and the trigger's
fresh `updated_at`. -/
theorem cancelReservation_state (db : DB) (cache : List Reservation)
    (u : UserId) (rid : ResId) (now : Nat) :
    (cancelReservation db cache (some u) rid now).1
      = { db with reservations := db.reservations.map (fun r =>
            if r.id == rid && r.rider_id == u then
              { r with status := "cancelled", updated_at := now }
            else r) } := rfl

/-- Helper: `updateRide` never modifies the reservations table. -/
theorem updateRide_reservations_eq (db : DB) (uid : Option UserId)
    (rideId : RideId) (upd : RideUpdate) :
    (updateRide db uid rideId upd).1.reservations = db.reservations := by
  cases uid with
  | none => rfl
  | some u =>
    unfold updateRide
    cases hf : db.rides.find? (fun r => r.id == rideId) with
    | none => rfl
    | some ex =>
      simp only
      split_ifs <;> rfl

/-- Helper: the state `updateRide` leaves behind is the input state or
the input state with the matched ride rows rewritten by the payload. -/
theorem updateRide_state_cases (db : DB) (uid : Option UserId)
    (rideId : RideId) (upd : RideUpdate) :
    (updateRide db uid rideId upd).1 = db ∨
    (updateRide db uid rideId upd).1
      = { db with rides := db.rides.map (fun r =>
            if r.id == rideId then applyRideUpdate r upd else r) } := by
  cases uid with
  | none => exact Or.inl rfl
  | some u =>
    unfold updateRide
    cases hf : db.rides.find? (fun r => r.id == rideId) with
    | none => exact Or.inl rfl
    | some ex =>
      simp only
      split_ifs
      · exact Or.inl rfl
      · exact Or.inr rfl

/-- C6: a user who is the driver of a ride can never successfully
reserve a seat on it: whenever every active-ride lookup of `rideId`
yields a ride driven by `u`, `createReservation` by `u` returns an error
and leaves the database unchanged. -/
theorem driver_cannot_reserve_own_ride (db : DB) (u : UserId)
    (rideId : RideId) (s : Int) (now : Nat)
    (hdriver : ∀ r, findActiveRide db rideId = some r → r.driver_id = u) :
    ∃ e, createReservation db (some u) rideId s now = (db, Except.error e) := by
  unfold createReservation
  cases hf : findActiveRide db rideId with
  | none => exact ⟨.rideNotFound, rfl⟩
  | some ride =>
    have hd : ride.driver_id = u := hdriver ride hf
    simp only
    split_ifs with h1 h2 h3 h4 <;>
      first
        | exact ⟨_, rfl⟩
        | exact absurd (by simp [hd]) h4

/-- C6 witness: the driver of `ride0` (user 100) cannot reserve seat 2
on their own ride. -/
theorem driver_cannot_reserve_own_ride_witness :
    ∃ e, createReservation dbA (some 100) 0 2 9 = (dbA, Except.error e) := by
  refine driver_cannot_reserve_own_ride dbA 100 0 2 9 ?_
  intro r hr
  have hx : findActiveRide dbA 0 = some ride0 := rfl
  rw [hx] at hr
  injection hr with h
  rw [← h]
  exact rfl

/-- C8: a successful `createReservation` performs exactly one insert
and modifies nothing else: the rides (hence every `available_seats`
array) are unchanged, the pre-existing reservation rows are unchanged
with the new confirmed row appended after them, and the only other
change is the generated-id counter advancing. -/
theorem create_success_frame (db : DB) (uid : Option UserId)
    (rideId : RideId) (s : Int) (now : Nat) (db' : DB) (res : Reservation)
    (h : createReservation db uid rideId s now = (db', Except.ok res)) :
    db'.rides = db.rides ∧
    db'.reservations = db.reservations ++ [res] ∧
    res.status = "confirmed" ∧
    db'.nextResId = db.nextResId + 1 := by
  cases uid with
  | none =>
    rw [show createReservation db none rideId s now
          = (db, Except.error CreateError.notLoggedIn) from rfl] at h
    injection h with hdb herr
    exact absurd herr (by simp)
  | some u =>
    unfold createReservation at h
    cases hf : findActiveRide db rideId with
    | none =>
      rw [hf] at h
      injection h with hdb herr
      exact absurd herr (by simp)
    | some ride =>
      rw [hf] at h
      simp only at h
      split_ifs at h with h1 h2 h3 h4 h5 h6 <;>
        injection h with hdb herr <;>
        first
          | exact Except.noConfusion herr
          | (injection herr with hres
             subst hdb
             subst hres
             exact ⟨rfl, rfl, rfl, rfl⟩)

/-- C8 witness: rider 1's successful reservation of seat 2 on `ride0`
only appends the new confirmed row. -/
theorem create_success_frame_witness :
    dbB.rides = dbA.rides ∧
    dbB.reservations = dbA.reservations ++
      [{ id := 0, ride_id := 0, rider_id := 1, seat_number := 2,
         status := "confirmed", created_at := 1, updated_at := 1 }] ∧
    ({ id := 0, ride_id := 0, rider_id := 1, seat_number := 2,
       status := "confirmed", created_at := 1, updated_at := 1 } : Reservation).status
      = "confirmed" ∧
    dbB.nextResId = dbA.nextResId + 1 :=
  create_success_frame dbA (some 1) 0 2 1 dbB
    { id := 0, ride_id := 0, rider_id := 1, seat_number := 2,
      status := "confirmed", created_at := 1, updated_at := 1 } rfl

/-- C2: once a cancelled row occupies a uniqueness slot, a new
reservation that passes every application pre-check (active ride, seat
offered, caller not the driver, no confirmed row on the seat or by the
caller) still fails: the insert is rejected by the status-blind
`UNIQUE(ride_id, seat_number)` constraint when a cancelled row holds the
seat, and by `UNIQUE(ride_id, rider_id)` when a cancelled row holds the
rider slot, leaving the database unchanged. -/
theorem cancelled_row_blocks_reuse (db : DB) (u : UserId) (rideId : RideId)
    (seat : Int) (now : Nat) (ride : Ride)
    (hfind : findActiveRide db rideId = some ride)
    (hseat : seat ∈ ride.available_seats)
    (hnotdriver : ride.driver_id ≠ u)
    (hnoconfseat : confirmedAt db rideId seat = none)
    (hnoconfrider : confirmedBy db rideId u = none) :
    ((∃ r ∈ db.reservations, r.ride_id = rideId ∧ r.seat_number = seat ∧
        r.status = "cancelled") →
      createReservation db (some u) rideId seat now
        = (db, Except.error (CreateError.uniqueViolationSeat seat))) ∧
    (seatSlotTaken db rideId seat = false →
     (∃ r ∈ db.reservations, r.ride_id = rideId ∧ r.rider_id = u ∧
        r.status = "cancelled") →
      createReservation db (some u) rideId seat now
        = (db, Except.error CreateError.uniqueViolationRider)) := by
  rw [createReservation_some_eq db u rideId seat now ride hfind]
  rw [if_neg (not_not.mpr hseat)]
  rw [if_neg (by simp [hnoconfseat])]
  rw [if_neg (by simp [hnoconfrider])]
  rw [if_neg (by simpa using hnotdriver)]
  constructor
  · rintro ⟨r, hr, hrid, hrseat, -⟩
    have htaken : seatSlotTaken db rideId seat = true := by
      unfold seatSlotTaken
      rw [List.any_eq_true]
      exact ⟨r, hr, by simp [hrid, hrseat]⟩
    rw [if_pos htaken]
  · rintro hfree ⟨r, hr, hrid, hrrider, -⟩
    have htaken : riderSlotTaken db rideId u = true := by
      unfold riderSlotTaken
      rw [List.any_eq_true]
      exact ⟨r, hr, by simp [hrid, hrrider]⟩
    rw [if_neg (by simp [hfree]), if_pos htaken]

/-- C2 witness: in `dbC` (rider 1's reservation of seat 2 was
cancelled), rider 2's attempt at seat 2 and rider 1's attempt at seat 3
both pass every pre-check yet are rejected by the unique constraints. -/
theorem cancelled_row_blocks_reuse_witness :
    createReservation dbC (some 2) 0 2 4
      = (dbC, Except.error (CreateError.uniqueViolationSeat 2)) ∧
    createReservation dbC (some 1) 0 3 4
      = (dbC, Except.error CreateError.uniqueViolationRider) := by
  constructor
  · exact (cancelled_row_blocks_reuse dbC 2 0 2 4 ride0 rfl (by decide)
      (by decide) rfl rfl).1 ⟨resCancelled, by decide, rfl, rfl, rfl⟩
  · exact (cancelled_row_blocks_reuse dbC 1 0 3 4 ride0 rfl (by decide)
      (by decide) rfl rfl).2 (by decide) ⟨resCancelled, by decide, rfl, rfl, rfl⟩

/-- C9: when the reservation id does not exist, or its row belongs to a
different rider, `cancelReservation` still reports success
(`error: null`), changes no database row, and nevertheless removes any
locally cached reservation with that id. -/
theorem cancel_foreign_or_missing_reports_success (db : DB)
    (cache : List Reservation) (u : UserId) (rid : ResId) (now : Nat)
    (h : ∀ r ∈ db.reservations, r.id = rid → r.rider_id ≠ u) :
    (cancelReservation db cache (some u) rid now).1 = db ∧
    (cancelReservation db cache (some u) rid now).2.2 = Except.ok () ∧
    ∀ c : Reservation,
      c ∈ (cancelReservation db cache (some u) rid now).2.1 ↔
        (c ∈ cache ∧ c.id ≠ rid) := by
  refine ⟨?_, rfl, ?_⟩
  · rw [cancelReservation_state]
    have hmap : db.reservations.map (fun r =>
        if r.id == rid && r.rider_id == u then
          { r with status := "cancelled", updated_at := now }
        else r) = db.reservations := by
      have hid : db.reservations.map (fun r =>
          if r.id == rid && r.rider_id == u then
            { r with status := "cancelled", updated_at := now }
          else r) = db.reservations.map id := by
        apply List.map_congr_left
        intro r hr
        by_cases hrid : r.id = rid
        · have : r.rider_id ≠ u := h r hr hrid
          simp [this]
        · simp [hrid]
      rw [hid, List.map_id]
    rw [hmap]
  · intro c
    show c ∈ cache.filter (fun r => r.id != rid) ↔ _
    simp [List.mem_filter]

/-- C9 witness: rider 2 cancelling rider 1's reservation id 0 in `dbB`
gets a success result, no row changes, and the cached copy is dropped. -/
theorem cancel_foreign_or_missing_reports_success_witness :
    (cancelReservation dbB dbB.reservations (some 2) 0 5).1 = dbB ∧
    (cancelReservation dbB dbB.reservations (some 2) 0 5).2.2 = Except.ok () ∧
    ∀ c : Reservation,
      c ∈ (cancelReservation dbB dbB.reservations (some 2) 0 5).2.1 ↔
        (c ∈ dbB.reservations ∧ c.id ≠ 0) :=
  cancel_foreign_or_missing_reports_success dbB dbB.reservations 2 0 5
    (by decide)

/-- C7 counterexample: cancelling rider 1's confirmed reservation in
`dbB` does not merely flip its status to `"cancelled"`: the
`BEFORE UPDATE` trigger also overwrites `updated_at` (1 becomes 7), so
the row predicted by the claim (status changed, every other field kept)
is not the row produced. -/
theorem cancel_not_only_status_change :
    (cancelReservation dbB [] (some 1) 0 7).1.reservations
      ≠ [{ id := 0, ride_id := 0, rider_id := 1, seat_number := 2,
           status := "cancelled", created_at := 1, updated_at := 1 }] ∧
    (cancelReservation dbB [] (some 1) 0 7).1.reservations
      = [{ id := 0, ride_id := 0, rider_id := 1, seat_number := 2,
           status := "cancelled", created_at := 1, updated_at := 7 }] :=
  ⟨by decide, by decide⟩

/-- C7 (amended): `cancelReservation` touches only rows whose `id`
matches and whose `rider_id` is the caller; those rows get status
`"cancelled"` and a trigger-refreshed `updated_at`, every other field is
preserved, and every other row (and the rides table) is unchanged. -/
theorem cancel_updates_only_own_rows (db : DB) (cache : List Reservation)
    (u : UserId) (rid : ResId) (now : Nat) :
    (cancelReservation db cache (some u) rid now).1.rides = db.rides ∧
    List.Forall₂ (fun old new : Reservation =>
        new.id = old.id ∧ new.ride_id = old.ride_id ∧
        new.rider_id = old.rider_id ∧ new.seat_number = old.seat_number ∧
        new.created_at = old.created_at ∧
        ((old.id = rid ∧ old.rider_id = u) →
          new.status = "cancelled" ∧ new.updated_at = now) ∧
        (¬(old.id = rid ∧ old.rider_id = u) → new = old))
      db.reservations
      (cancelReservation db cache (some u) rid now).1.reservations := by
  refine ⟨rfl, ?_⟩
  rw [cancelReservation_state]
  show List.Forall₂ _ db.reservations (db.reservations.map _)
  rw [List.forall₂_map_right_iff, List.forall₂_same]
  intro r hr
  by_cases hc : r.id = rid ∧ r.rider_id = u
  · have hcond : (r.id == rid && r.rider_id == u) = true := by
      simp [hc.1, hc.2]
    rw [if_pos hcond]
    exact ⟨rfl, rfl, rfl, rfl, rfl, fun _ => ⟨rfl, rfl⟩, fun hn => absurd hc hn⟩
  · have hcond : (r.id == rid && r.rider_id == u) = false := by
      rw [Bool.eq_false_iff]
      intro hb
      exact hc (by simpa [Bool.and_eq_true, beq_iff_eq] using hb)
    rw [if_neg (by simp [hcond])]
    exact ⟨rfl, rfl, rfl, rfl, rfl, fun hp => absurd hp hc, fun _ => rfl⟩

/-- The C1 property: no two reservation rows are both confirmed while
sharing (ride, seat) or sharing (ride, rider). -/
def NoDoubleBooking (db : DB) : Prop :=
  db.reservations.Pairwise (fun a b =>
    a.status = "confirmed" → b.status = "confirmed" → a.ride_id = b.ride_id →
      a.seat_number ≠ b.seat_number ∧ a.rider_id ≠ b.rider_id)

/-- What the two SQL `UNIQUE` constraints enforce on every row, whatever
its status: no two rows share (ride, seat) and no two share
(ride, rider). -/
def KeysUnique (db : DB) : Prop :=
  db.reservations.Pairwise (fun a b =>
    ¬ (a.ride_id = b.ride_id ∧ a.seat_number = b.seat_number) ∧
    ¬ (a.ride_id = b.ride_id ∧ a.rider_id = b.rider_id))

/-- Helper: `createReservation` preserves key uniqueness (the insert is
guarded by both slot checks). -/
theorem keysUnique_create (db : DB) (uid : Option UserId) (rideId : RideId)
    (s : Int) (now : Nat) (h : KeysUnique db) :
    KeysUnique (createReservation db uid rideId s now).1 := by
  rcases createReservation_state_cases db uid rideId s now with
    he | ⟨u, ride, huid, hfind, hmem, hnd, hseatfree, hriderfree, he⟩
  · rw [KeysUnique, he]
    exact h
  · rw [KeysUnique, he]
    simp only
    rw [List.pairwise_append]
    refine ⟨h, List.pairwise_singleton _ _, ?_⟩
    intro a ha b hb
    rw [List.mem_singleton] at hb
    subst hb
    constructor
    · rintro ⟨h1, h2⟩
      have : seatSlotTaken db rideId s = true := by
        unfold seatSlotTaken
        rw [List.any_eq_true]
        exact ⟨a, ha, by simp [h1, h2]⟩
      rw [hseatfree] at this
      exact Bool.false_ne_true this
    · rintro ⟨h1, h2⟩
      have : riderSlotTaken db rideId u = true := by
        unfold riderSlotTaken
        rw [List.any_eq_true]
        exact ⟨a, ha, by simp [h1, h2]⟩
      rw [hriderfree] at this
      exact Bool.false_ne_true this

/-- Helper: a row touched by `cancelReservation` keeps its key fields. -/
theorem cancelTouch_keeps_keys (rid : ResId) (u : UserId) (now : Nat)
    (r : Reservation) :
    (if r.id == rid && r.rider_id == u then
        { r with status := "cancelled", updated_at := now }
      else r).ride_id = r.ride_id ∧
    (if r.id == rid && r.rider_id == u then
        { r with status := "cancelled", updated_at := now }
      else r).seat_number = r.seat_number ∧
    (if r.id == rid && r.rider_id == u then
        { r with status := "cancelled", updated_at := now }
      else r).rider_id = r.rider_id := by
  split <;> exact ⟨rfl, rfl, rfl⟩

/-- Helper: `cancelReservation` preserves key uniqueness (it only
rewrites `status` and `updated_at`). -/
theorem keysUnique_cancel (db : DB) (cache : List Reservation)
    (uid : Option UserId) (rid : ResId) (now : Nat) (h : KeysUnique db) :
    KeysUnique (cancelReservation db cache uid rid now).1 := by
  cases uid with
  | none => exact h
  | some u =>
    rw [KeysUnique, cancelReservation_state]
    simp only
    rw [List.pairwise_map]
    refine h.imp ?_
    intro a b hab
    obtain ⟨hra, hsa, hia⟩ := cancelTouch_keeps_keys rid u now a
    obtain ⟨hrb, hsb, hib⟩ := cancelTouch_keeps_keys rid u now b
    constructor
    · rintro ⟨h1, h2⟩
      rw [hra, hrb] at h1
      rw [hsa, hsb] at h2
      exact hab.1 ⟨h1, h2⟩
    · rintro ⟨h1, h2⟩
      rw [hra, hrb] at h1
      rw [hia, hib] at h2
      exact hab.2 ⟨h1, h2⟩

/-- Helper: `updateRide` preserves key uniqueness (reservations are
untouched). -/
theorem keysUnique_update (db : DB) (uid : Option UserId) (rideId : RideId)
    (upd : RideUpdate) (h : KeysUnique db) :
    KeysUnique (updateRide db uid rideId upd).1 := by
  rw [KeysUnique, updateRide_reservations_eq]
  exact h

/-- Helper: every reachable state satisfies the SQL key uniqueness. -/
theorem keysUnique_of_reachable (db : DB) (h : Reachable db) :
    KeysUnique db := by
  induction h with
  | init rides hn => exact List.Pairwise.nil
  | step hprev hstep ih =>
    cases hstep with
    | create uid rideId s now => exact keysUnique_create _ uid rideId s now ih
    | cancel cache uid rid now => exact keysUnique_cancel _ cache uid rid now ih
    | update uid rideId upd => exact keysUnique_update _ uid rideId upd ih

/-- C1: in every database state reachable by the reservation operations,
at most one confirmed row exists per (ride, seat) and at most one per
(ride, rider): two distinct rows are never both confirmed on the same
ride with the same seat number or the same rider. -/
theorem reachable_no_double_booking (db : DB) (h : Reachable db) :
    NoDoubleBooking db := by
  have hk := keysUnique_of_reachable db h
  rw [NoDoubleBooking]
  rw [KeysUnique] at hk
  refine hk.imp ?_
  intro a b hab
  intro _ _ hride
  exact ⟨fun hs => hab.1 ⟨hride, hs⟩, fun hrr => hab.2 ⟨hride, hrr⟩⟩

/-- C1 witness: the state with riders 1 and 2 holding seats 2 and 3 of
`ride0` is reachable, so it has no double booking. -/
theorem reachable_no_double_booking_witness : NoDoubleBooking dbB2 :=
  reachable_no_double_booking dbB2
    (Reachable.step
      (Reachable.step (Reachable.init [ride0] (by decide))
        (Step.create dbA (some 1) 0 2 1))
      (Step.create dbB (some 2) 0 3 2))

/-- C4 counterexample: the state `dbShrunk` is reachable (two confirmed
reservations, then the driver shrinks `available_seats` to `[2]` via
`updateRide`), and in it ride 0 has 2 confirmed reservations but only 1
available seat. -/
theorem confirmed_exceeds_seats_after_update :
    Reachable dbShrunk ∧
    ∃ r ∈ dbShrunk.rides,
      r.available_seats.length < confirmedCount dbShrunk r.id := by
  constructor
  · exact Reachable.step
      (Reachable.step
        (Reachable.step (Reachable.init [ride0] (by decide))
          (Step.create dbA (some 1) 0 2 1))
        (Step.create dbB (some 2) 0 3 2))
      (Step.update dbB2 (some 100) 0 { available_seats := some [2], status := none })
  · decide

/-- The inductive invariant behind the (amended) C4 bound: ride ids are
unique, the SQL keys are unique, and every confirmed reservation's seat
belongs to its ride's current `available_seats`. -/
def SeatsInv (db : DB) : Prop :=
  (db.rides.map Ride.id).Nodup ∧
  KeysUnique db ∧
  ∀ res ∈ db.reservations, res.status = "confirmed" →
    ∀ r ∈ db.rides, r.id = res.ride_id → res.seat_number ∈ r.available_seats

/-- Helper: `createReservation` preserves `SeatsInv` — the inserted row's
seat was checked against the looked-up ride's `available_seats`. -/
theorem seatsInv_create (db : DB) (uid : Option UserId) (rideId : RideId)
    (s : Int) (now : Nat) (h : SeatsInv db) :
    SeatsInv (createReservation db uid rideId s now).1 := by
  obtain ⟨hids, hkeys, hseats⟩ := h
  refine ⟨?_, keysUnique_create db uid rideId s now hkeys, ?_⟩
  · rw [createReservation_rides_eq]
    exact hids
  · rcases createReservation_state_cases db uid rideId s now with
      he | ⟨u, ride, huid, hfind, hmem, hnd, hseatfree, hriderfree, he⟩
    · rw [he]
      exact hseats
    · rw [he]
      simp only
      intro res hres hstat r hr hid
      rcases List.mem_append.1 hres with hold | hnew
      · exact hseats res hold hstat r hr hid
      · rw [List.mem_singleton] at hnew
        subst hnew
        have hridemem : ride ∈ db.rides := List.mem_of_find?_eq_some hfind
        have hpred := List.find?_some hfind
        have hrideid : ride.id = rideId := by
          simp [Bool.and_eq_true, beq_iff_eq] at hpred
          exact hpred.1
        have : r = ride := by
          apply List.inj_on_of_nodup_map hids hr hridemem
          simpa [hrideid] using hid
        subst this
        exact hmem

/-- Helper: `cancelReservation` preserves `SeatsInv` — a touched row is
no longer confirmed, an untouched row is literally unchanged. -/
theorem seatsInv_cancel (db : DB) (cache : List Reservation)
    (uid : Option UserId) (rid : ResId) (now : Nat) (h : SeatsInv db) :
    SeatsInv (cancelReservation db cache uid rid now).1 := by
  obtain ⟨hids, hkeys, hseats⟩ := h
  refine ⟨?_, keysUnique_cancel db cache uid rid now hkeys, ?_⟩
  · cases uid with
    | none => exact hids
    | some u =>
      rw [cancelReservation_state]
      exact hids
  · cases uid with
    | none => exact hseats
    | some u =>
      rw [cancelReservation_state]
      simp only
      intro res hres hstat r hr hid
      obtain ⟨r0, hr0, hmap⟩ := List.mem_map.1 hres
      by_cases hc : (r0.id == rid && r0.rider_id == u) = true
      · rw [if_pos hc] at hmap
        subst hmap
        exact absurd hstat (by simp)
      · rw [if_neg hc] at hmap
        subst hmap
        exact hseats r0 hr0 hstat r hr hid

/-- Helper: a ride update whose payload has no `available_seats` column
preserves `SeatsInv`. -/
theorem seatsInv_update_fixed_seats (db : DB) (uid : Option UserId)
    (rideId : RideId) (upd : RideUpdate)
    (hfix : upd.available_seats = none) (h : SeatsInv db) :
    SeatsInv (updateRide db uid rideId upd).1 := by
  obtain ⟨hids, hkeys, hseats⟩ := h
  have hkeep : ∀ r : Ride,
      (if r.id == rideId then applyRideUpdate r upd else r).id = r.id ∧
      (if r.id == rideId then applyRideUpdate r upd else r).available_seats
        = r.available_seats := by
    intro r
    split
    · exact ⟨rfl, by simp [applyRideUpdate, hfix]⟩
    · exact ⟨rfl, rfl⟩
  rcases updateRide_state_cases db uid rideId upd with he | he
  · rw [he]
    exact ⟨hids, hkeys, hseats⟩
  · refine ⟨?_, ?_, ?_⟩
    · rw [he]
      simp only
      rw [List.map_map]
      have : db.rides.map (Ride.id ∘ fun r =>
          if r.id == rideId then applyRideUpdate r upd else r)
            = db.rides.map Ride.id :=
        List.map_congr_left (fun r _ => (hkeep r).1)
      rw [this]
      exact hids
    · rw [KeysUnique, updateRide_reservations_eq]
      exact hkeys
    · rw [he]
      simp only
      intro res hres hstat r hr hid
      obtain ⟨r0, hr0, hmap⟩ := List.mem_map.1 hr
      rw [← hmap, (hkeep r0).2]
      refine hseats res hres hstat r0 hr0 ?_
      rw [← (hkeep r0).1, hmap]
      exact hid

/-- Helper: every state reachable without seat-list updates satisfies
the inductive invariant. -/
theorem seatsInv_of_reachableFS (db : DB) (h : ReachableFS db) :
    SeatsInv db := by
  induction h with
  | init rides hn =>
    exact ⟨hn, List.Pairwise.nil, by intro res hres; cases hres⟩
  | step hprev hstep ih =>
    cases hstep with
    | create uid rideId s now => exact seatsInv_create _ uid rideId s now ih
    | cancel cache uid rid now => exact seatsInv_cancel _ cache uid rid now ih
    | update uid rideId upd hfix =>
      exact seatsInv_update_fixed_seats _ uid rideId upd hfix ih

/-- C4 (amended): in every state reachable while no `updateRide` call
replaces a ride's `available_seats`, each ride's number of confirmed
reservations is at most the length of its `available_seats` array.  (As
stated the claim is false: `updateRide` may shrink `available_seats`
below the number of confirmed reservations — see the counterexample.) -/
theorem confirmedCount_le_available_seats (db : DB) (h : ReachableFS db) :
    ∀ r ∈ db.rides, confirmedCount db r.id ≤ r.available_seats.length := by
  obtain ⟨hids, hkeys, hmem⟩ := seatsInv_of_reachableFS db h
  intro r hr
  have hsub : (db.reservations.filter (fun res =>
      res.ride_id == r.id && res.status == "confirmed")).Sublist
        db.reservations := List.filter_sublist _
  have hpairc := List.Pairwise.sublist hsub hkeys
  have hseatnodup : ((db.reservations.filter (fun res =>
      res.ride_id == r.id && res.status == "confirmed")).map
        (fun res => res.seat_number)).Nodup := by
    have hp : (db.reservations.filter (fun res =>
        res.ride_id == r.id && res.status == "confirmed")).Pairwise
          (fun a b => a.seat_number ≠ b.seat_number) := by
      refine List.Pairwise.imp_of_mem ?_ hpairc
      intro a b ha hb hab
      have ha' := (List.mem_filter.1 ha).2
      have hb' := (List.mem_filter.1 hb).2
      simp only [Bool.and_eq_true, beq_iff_eq] at ha' hb'
      intro heq
      exact hab.1 ⟨ha'.1.trans hb'.1.symm, heq⟩
    exact List.pairwise_map.2 hp
  have hsubset : ∀ x ∈ (db.reservations.filter (fun res =>
      res.ride_id == r.id && res.status == "confirmed")).map
        (fun res => res.seat_number), x ∈ r.available_seats := by
    intro x hx
    obtain ⟨res, hres, rfl⟩ := List.mem_map.1 hx
    have h1 := (List.mem_filter.1 hres).1
    have h2 := (List.mem_filter.1 hres).2
    simp only [Bool.and_eq_true, beq_iff_eq] at h2
    exact hmem res h1 h2.2 r hr h2.1.symm
  have hlen := (hseatnodup.subperm (fun x hx => hsubset x hx)).length_le
  rw [List.length_map] at hlen
  exact hlen

/-- C4 witness: `dbB2` is reachable without seat-list updates, and
ride 0's two confirmed reservations fit its two offered seats. -/
theorem confirmedCount_le_available_seats_witness :
    confirmedCount dbB2 ride0.id ≤ ride0.available_seats.length :=
  confirmedCount_le_available_seats dbB2
    (ReachableFS.step
      (ReachableFS.step (ReachableFS.init [ride0] (by decide))
        (StepFS.create dbA (some 1) 0 2 1))
      (StepFS.create dbB (some 2) 0 3 2))
    ride0 (by decide)

/-- The spec's "number of confirmed reservations" of a reservations
list (the count the `app/rides/page.tsx` query delivers for one ride). -/
def confirmedCountOf (reservations : List Reservation) : Nat :=
  (reservations.filter (fun r => r.status == "confirmed")).length

/-- A confirmed reservation on seat 2 of ride 0, as displayed by the
seat components. -/
def resW : Reservation :=
  { id := 0, ride_id := 0, rider_id := 1, seat_number := 2,
    status := "confirmed", created_at := 0, updated_at := 0 }

/-- A confirmed reservation on seat 5 — a seat that is not in the
`[2, 3]` seat list (such rows are reachable once the driver shrinks
`available_seats` under an existing reservation). -/
def strayRes : Reservation :=
  { id := 1, ride_id := 0, rider_id := 1, seat_number := 5,
    status := "confirmed", created_at := 0, updated_at := 0 }

/-- C5 counterexample: with seat list `[2, 3]` and one confirmed
reservation on seat 5, `ReserveSeatButton`'s displayed count is 2,
while |available-seats set| − |confirmed reservations| is 1. -/
theorem availableSeatsCount_not_difference :
    availableSeatsCount [2, 3] [strayRes] = 2 ∧
    ([2, 3] : List Int).length - confirmedCountOf [strayRes] = 1 ∧
    availableSeatsCount [2, 3] [strayRes]
      ≠ ([2, 3] : List Int).length - confirmedCountOf [strayRes] :=
  ⟨by decide, by decide, by decide⟩

/-- Helper: filtering a list by a predicate and by its negation splits
its length. -/
theorem length_filter_not_add (l : List Int) (p : Int → Bool) :
    (l.filter (fun s => !(p s))).length + (l.filter p).length = l.length := by
  induction l with
  | nil => rfl
  | cons x xs ih =>
    cases hpx : p x <;> simp [List.filter_cons, hpx] <;> omega

/-- Helper: `contains` agrees with membership on integer lists. -/
theorem contains_true_iff (l : List Int) (x : Int) :
    l.contains x = true ↔ x ∈ l := by
  simp [List.contains, List.elem_iff]

/-- Helper: `isSeatAvailable` is exactly membership in the seat list. -/
theorem isSeatAvailable_iff (s : Int) (l : List Int) :
    isSeatAvailable s l = true ↔ s ∈ l := by
  cases l with
  | nil => simp [isSeatAvailable]
  | cons x xs =>
    rw [isSeatAvailable]
    simp only [List.isEmpty_cons, if_false]
    exact contains_true_iff _ _

/-- C5 (amended): when every confirmed reservation sits on a distinct
seat of `available_seats` and the seat list is duplicate-free (the
situation in every state reachable without seat-list updates), the
`ReserveSeatButton` count equals |available-seats| − |confirmed|; the
my-rides count is that difference; and `SeatList` marks a seat occupied
exactly when a confirmed reservation on that seat number exists,
available exactly by membership, covering exactly the seats of the
list.  (As stated the claim fails for `availableSeatsCount` when a
confirmed reservation's seat is outside the list — see the
counterexample.) -/
theorem availability_projection (availableSeats : List Int)
    (reservations : List Reservation)
    (hmem : ∀ r ∈ reservations, r.status = "confirmed" →
      r.seat_number ∈ availableSeats)
    (hnodupres : (reservedSeatNumbers reservations).Nodup)
    (hnodupseats : availableSeats.Nodup) :
    (availableSeatsCount availableSeats reservations : Int)
      = (availableSeats.length : Int) - (confirmedCountOf reservations : Int) ∧
    getAvailableSeats "driver" availableSeats (confirmedCountOf reservations)
      = (availableSeats.length : Int) - (confirmedCountOf reservations : Int) ∧
    (∀ st ∈ seatStatuses availableSeats reservations,
      (st.isOccupied = true ↔
        ∃ r ∈ reservations, r.status = "confirmed" ∧
          r.seat_number = st.seatNumber) ∧
      (st.isAvailable = true ↔ st.seatNumber ∈ availableSeats)) ∧
    (∀ s : Int, (∃ st ∈ seatStatuses availableSeats reservations,
      st.seatNumber = s) ↔ s ∈ availableSeats) := by
  have hRsub : ∀ x ∈ reservedSeatNumbers reservations, x ∈ availableSeats := by
    intro x hx
    obtain ⟨res, hres, rfl⟩ := List.mem_map.1 hx
    have h1 := (List.mem_filter.1 hres).1
    have h2 := (List.mem_filter.1 hres).2
    rw [beq_iff_eq] at h2
    exact hmem res h1 h2
  have hcount : confirmedCountOf reservations
      = (reservedSeatNumbers reservations).length := by
    rw [reservedSeatNumbers, List.length_map]
    rfl
  have hsum : availableSeatsCount availableSeats reservations +
      (availableSeats.filter (fun s =>
        (reservedSeatNumbers reservations).contains s)).length
      = availableSeats.length :=
    length_filter_not_add availableSeats
      (fun s => (reservedSeatNumbers reservations).contains s)
  have key : (availableSeats.filter (fun s =>
      (reservedSeatNumbers reservations).contains s)).length
      = (reservedSeatNumbers reservations).length := by
    have hfiltnodup : (availableSeats.filter (fun s =>
        (reservedSeatNumbers reservations).contains s)).Nodup :=
      hnodupseats.filter _
    have hfs : (availableSeats.filter (fun s =>
        (reservedSeatNumbers reservations).contains s)).toFinset
        = (reservedSeatNumbers reservations).toFinset := by
      ext x
      simp only [List.mem_toFinset, List.mem_filter]
      constructor
      · rintro ⟨-, hc⟩
        exact (contains_true_iff _ _).1 hc
      · intro hxR
        exact ⟨hRsub x hxR, (contains_true_iff _ _).2 hxR⟩
    rw [← List.toFinset_card_of_nodup hfiltnodup,
      ← List.toFinset_card_of_nodup hnodupres, hfs]
  refine ⟨?_, ?_, ?_, ?_⟩
  · omega
  · simp [getAvailableSeats]
  · intro st hst
    rw [seatStatuses] at hst
    simp only [List.mem_map] at hst
    obtain ⟨s, hs, rfl⟩ := hst
    constructor
    · simp only [List.find?_isSome, List.mem_filter, beq_iff_eq]
      constructor
      · rintro ⟨r, ⟨hrmem, hrstat⟩, hrseat⟩
        exact ⟨r, hrmem, hrstat, hrseat⟩
      · rintro ⟨r, hrmem, hrstat, hrseat⟩
        exact ⟨r, ⟨hrmem, by rw [hrstat]⟩, by rw [hrseat]⟩
    · exact isSeatAvailable_iff s availableSeats
  · intro s
    rw [seatStatuses]
    simp only [List.mem_map, List.mem_mergeSort]
    constructor
    · rintro ⟨st, ⟨x, hx, rfl⟩, hxs⟩
      rw [← hxs]
      exact hx
    · intro hs
      exact ⟨_, ⟨s, hs, rfl⟩, rfl⟩

/-- C5 witness: seats `[2, 3]` with one confirmed reservation on seat 2
display one remaining seat; seat 2 is occupied, seat 3 is not. -/
theorem availability_projection_witness :
    (availableSeatsCount [2, 3] [resW] : Int)
      = (([2, 3] : List Int).length : Int) - (confirmedCountOf [resW] : Int) ∧
    getAvailableSeats "driver" [2, 3] (confirmedCountOf [resW])
      = (([2, 3] : List Int).length : Int) - (confirmedCountOf [resW] : Int) ∧
    (∀ st ∈ seatStatuses [2, 3] [resW],
      (st.isOccupied = true ↔
        ∃ r ∈ [resW], r.status = "confirmed" ∧
          r.seat_number = st.seatNumber) ∧
      (st.isAvailable = true ↔ st.seatNumber ∈ ([2, 3] : List Int))) ∧
    (∀ s : Int, (∃ st ∈ seatStatuses [2, 3] [resW],
      st.seatNumber = s) ↔ s ∈ ([2, 3] : List Int)) :=
  availability_projection [2, 3] [resW] (by decide) (by decide) (by decide)

/-- Helper: the Step-3 pre-check finds something exactly when a
confirmed row on (ride, seat) exists. -/
theorem confirmedAt_isSome_iff (db : DB) (rid : RideId) (s : Int) :
    (confirmedAt db rid s).isSome = true ↔
      ∃ r ∈ db.reservations,
        r.ride_id = rid ∧ r.seat_number = s ∧ r.status = "confirmed" := by
  unfold confirmedAt
  rw [List.find?_isSome]
  constructor
  · rintro ⟨r, hr, hp⟩
    simp only [Bool.and_eq_true, beq_iff_eq] at hp
    exact ⟨r, hr, hp.1.1, hp.1.2, hp.2⟩
  · rintro ⟨r, hr, h1, h2, h3⟩
    exact ⟨r, hr, by simp [h1, h2, h3]⟩

/-- Helper: the Step-4 pre-check finds something exactly when a
confirmed row by (ride, rider) exists. -/
theorem confirmedBy_isSome_iff (db : DB) (rid : RideId) (u : UserId) :
    (confirmedBy db rid u).isSome = true ↔
      ∃ r ∈ db.reservations,
        r.ride_id = rid ∧ r.rider_id = u ∧ r.status = "confirmed" := by
  unfold confirmedBy
  rw [List.find?_isSome]
  constructor
  · rintro ⟨r, hr, hp⟩
    simp only [Bool.and_eq_true, beq_iff_eq] at hp
    exact ⟨r, hr, hp.1.1, hp.1.2, hp.2⟩
  · rintro ⟨r, hr, h1, h2, h3⟩
    exact ⟨r, hr, by simp [h1, h2, h3]⟩

/-- Helper: the seat uniqueness slot is occupied exactly when some row
of any status holds (ride, seat). -/
theorem seatSlotTaken_true_iff (db : DB) (rid : RideId) (s : Int) :
    seatSlotTaken db rid s = true ↔
      ∃ r ∈ db.reservations, r.ride_id = rid ∧ r.seat_number = s := by
  unfold seatSlotTaken
  rw [List.any_eq_true]
  constructor
  · rintro ⟨r, hr, hp⟩
    simp only [Bool.and_eq_true, beq_iff_eq] at hp
    exact ⟨r, hr, hp.1, hp.2⟩
  · rintro ⟨r, hr, h1, h2⟩
    exact ⟨r, hr, by simp [h1, h2]⟩

/-- Helper: the rider uniqueness slot is occupied exactly when some row
of any status holds (ride, rider). -/
theorem riderSlotTaken_true_iff (db : DB) (rid : RideId) (u : UserId) :
    riderSlotTaken db rid u = true ↔
      ∃ r ∈ db.reservations, r.ride_id = rid ∧ r.rider_id = u := by
  unfold riderSlotTaken
  rw [List.any_eq_true]
  constructor
  · rintro ⟨r, hr, hp⟩
    simp only [Bool.and_eq_true, beq_iff_eq] at hp
    exact ⟨r, hr, hp.1, hp.2⟩
  · rintro ⟨r, hr, h1, h2⟩
    exact ⟨r, hr, by simp [h1, h2]⟩

/-- The row the spec's admission check inserts on success. -/
def newReservation (db : DB) (rideId : RideId) (user : UserId)
    (seatNumber : Int) (now : Nat) : Reservation :=
  { id := db.nextResId, ride_id := rideId, rider_id := user,
    seat_number := seatNumber, status := "confirmed",
    created_at := now, updated_at := now }

/-- The specification-side description of the reservation admission
check: preconditions (a)–(f) of §4.1 in their stated order, each written
declaratively as the existence of the matching rows, amended with the
failure-policy outcome of §4.1/§3: after every precondition passes, the
insert is still rejected when a row of ANY status occupies the
(ride, seat) slot or the (ride, rider) slot; otherwise the new confirmed
row is inserted. -/
def createReservationSpec (db : DB) (uid : Option UserId) (rideId : RideId)
    (seatNumber : Int) (now : Nat) : DB × Except CreateError Reservation :=
  match uid with
  | none => (db, .error .notLoggedIn)
  | some user =>
    match findActiveRide db rideId with
    | none => (db, .error .rideNotFound)
    | some ride =>
      if seatNumber ∉ ride.available_seats then
        (db, .error (.seatNotAvailable seatNumber))
      else if ∃ r ∈ db.reservations, r.ride_id = rideId ∧
          r.seat_number = seatNumber ∧ r.status = "confirmed" then
        (db, .error (.seatAlreadyReserved seatNumber))
      else if ∃ r ∈ db.reservations, r.ride_id = rideId ∧
          r.rider_id = user ∧ r.status = "confirmed" then
        (db, .error .alreadyReservedOnRide)
      else if ride.driver_id = user then
        (db, .error .ownRide)
      else if ∃ r ∈ db.reservations, r.ride_id = rideId ∧
          r.seat_number = seatNumber then
        (db, .error (.uniqueViolationSeat seatNumber))
      else if ∃ r ∈ db.reservations, r.ride_id = rideId ∧
          r.rider_id = user then
        (db, .error .uniqueViolationRider)
      else
        ({ db with
           reservations := db.reservations ++
             [newReservation db rideId user seatNumber now],
           nextResId := db.nextResId + 1 },
         .ok (newReservation db rideId user seatNumber now))

/-- C3 counterexample: in `dbC`, rider 2's request for seat 2 satisfies
every precondition (a)–(f) — the caller is authenticated, the ride is
active, the seat is offered, no confirmed row occupies the seat or the
rider, and the caller is not the driver — yet `createReservation`
returns an error (the unique-constraint rejection against the cancelled
row), not a new confirmed row, so the result is not "an error
identifying the first precondition that failed". -/
theorem create_rejects_despite_preconditions :
    findActiveRide dbC 0 = some ride0 ∧
    ride0.status = "active" ∧
    (2 : Int) ∈ ride0.available_seats ∧
    confirmedAt dbC 0 2 = none ∧
    confirmedBy dbC 0 2 = none ∧
    ride0.driver_id ≠ 2 ∧
    (createReservation dbC (some 2) 0 2 4).2
      = Except.error (CreateError.uniqueViolationSeat 2) :=
  ⟨rfl, rfl, by decide, rfl, rfl, by decide, rfl⟩

/-- C3 (amended): `createReservation` agrees everywhere with the
spec-side admission check: the six preconditions are evaluated in the
stated order (a)–(f) and the first failure determines the returned
error; when all pass, the insert yields the new confirmed row unless a
row of any status (cancelled ones included) occupies the (ride, seat) or
(ride, rider) uniqueness slot, in which case the corresponding
unique-constraint error is returned. -/
theorem createReservation_matches_spec (db : DB) (uid : Option UserId)
    (rideId : RideId) (s : Int) (now : Nat) :
    createReservation db uid rideId s now
      = createReservationSpec db uid rideId s now := by
  cases uid with
  | none => rfl
  | some u =>
    unfold createReservation createReservationSpec
    cases hfind : findActiveRide db rideId with
    | none => rfl
    | some ride =>
      simp only
      by_cases h1 : s ∉ ride.available_seats
      · rw [if_pos h1, if_pos h1]
      · rw [if_neg h1, if_neg h1]
        by_cases h2 : ∃ r ∈ db.reservations, r.ride_id = rideId ∧
            r.seat_number = s ∧ r.status = "confirmed"
        · rw [if_pos ((confirmedAt_isSome_iff db rideId s).2 h2), if_pos h2]
        · rw [if_neg (fun hb => h2 ((confirmedAt_isSome_iff db rideId s).1 hb)),
            if_neg h2]
          by_cases h3 : ∃ r ∈ db.reservations, r.ride_id = rideId ∧
              r.rider_id = u ∧ r.status = "confirmed"
          · rw [if_pos ((confirmedBy_isSome_iff db rideId u).2 h3), if_pos h3]
          · rw [if_neg (fun hb => h3 ((confirmedBy_isSome_iff db rideId u).1 hb)),
              if_neg h3]
            by_cases h4 : ride.driver_id = u
            · rw [if_pos (by simp [h4]), if_pos h4]
            · rw [if_neg (by simpa using h4), if_neg h4]
              by_cases h5 : ∃ r ∈ db.reservations, r.ride_id = rideId ∧
                  r.seat_number = s
              · rw [if_pos ((seatSlotTaken_true_iff db rideId s).2 h5),
                  if_pos h5]
              · rw [if_neg (fun hb =>
                    h5 ((seatSlotTaken_true_iff db rideId s).1 hb)), if_neg h5]
                by_cases h6 : ∃ r ∈ db.reservations, r.ride_id = rideId ∧
                    r.rider_id = u
                · rw [if_pos ((riderSlotTaken_true_iff db rideId u).2 h6),
                    if_pos h6]
                · rw [if_neg (fun hb =>
                    h6 ((riderSlotTaken_true_iff db rideId u).1 hb)), if_neg h6]
                  exact rfl

/-- C10: for every integer `totalSeats`, `generateSeatsForTotalCount`
returns `[]` when `totalSeats < 2`, and otherwise exactly the strictly
increasing list `[2, 3, ..., totalSeats]` of length `totalSeats - 1`,
which has no duplicates and never contains seat 1. -/
theorem generateSeats_exact (t : Int) :
    (t < 2 → generateSeatsForTotalCount t = []) ∧
    (2 ≤ t →
      ((generateSeatsForTotalCount t).length : Int) = t - 1 ∧
      (∀ i (h : i < (generateSeatsForTotalCount t).length),
        (generateSeatsForTotalCount t).get ⟨i, h⟩ = (i : Int) + 2) ∧
      (∀ x : Int, x ∈ generateSeatsForTotalCount t ↔ 2 ≤ x ∧ x ≤ t) ∧
      (generateSeatsForTotalCount t).Chain' (· < ·) ∧
      (generateSeatsForTotalCount t).Nodup ∧
      (1 : Int) ∉ generateSeatsForTotalCount t) := by
  constructor
  · intro hlt
    simp [generateSeatsForTotalCount, hlt]
  · intro hle
    have hnlt : ¬ t < 2 := not_lt.2 hle
    have hgen : generateSeatsForTotalCount t
        = (List.range (t - 1).toNat).map (fun i => (Nat.cast i + 2 : Int)) := by
      simp only [generateSeatsForTotalCount, if_neg hnlt]
    have hpair : (generateSeatsForTotalCount t).Pairwise (· < ·) := by
      rw [hgen, List.pairwise_map]
      refine (List.pairwise_lt_range _).imp ?_
      intro a b h
      omega
    refine ⟨?_, ?_, ?_, ?_, ?_, ?_⟩
    · rw [hgen, List.length_map, List.length_range]
      omega
    · intro i h
      simp only [hgen, List.get_eq_getElem, List.getElem_map, List.getElem_range]
    · intro x
      rw [hgen]
      simp only [List.mem_map, List.mem_range]
      constructor
      · rintro ⟨i, hi, rfl⟩
        omega
      · intro hx
        exact ⟨(x - 2).toNat, by omega, by omega⟩
    · exact List.chain'_iff_pairwise.2 hpair
    · exact hpair.imp ne_of_lt
    · intro hmem
      rw [hgen] at hmem
      simp only [List.mem_map, List.mem_range] at hmem
      omega

end ShareRide
